import Mathlib

/-!
# CPong: paddle clamp, ball physics and frame pacing

A shallow embedding of `SourceCode.c`.  C `int` values are mathematical
integers (the properties below are stated for runs without signed overflow,
which is undefined behaviour in C); `Uint32` values are naturals with every
subtraction reduced modulo `2 ^ 32`.
-/

namespace CPong

/-! ## Constants (the `#define` block) -/

def SCREEN_WIDTH : Int := 800
def SCREEN_HEIGHT : Int := 600
def SCORE_BAR_HEIGHT : Int := 50
def PADDLE_WIDTH : Int := 10
def PADDLE_HEIGHT : Int := 100
def BALL_SIZE : Int := 10
def PADDLE_SPEED : Int := 10
def BALL_SPEED : Int := 5
def TARGET_FPS : Nat := 60
/-- The macro `FRAME_DELAY`, `1000 / TARGET_FPS` in integer division. -/
def FRAME_DELAY : Nat := 1000 / TARGET_FPS

/-! ## Data model -/

/-- The struct `Paddle`. -/
structure Paddle where
  x : Int
  y : Int
  w : Int
  h : Int
  deriving DecidableEq, Repr

/-- The struct `Ball`. -/
structure Ball where
  x : Int
  y : Int
  dx : Int
  dy : Int
  size : Int
  deriving DecidableEq, Repr

/-! ## `move_paddle` -/

/-- The function `move_paddle`: add `direction * PADDLE_SPEED` to `y`, then the
two `if` statements in source order. -/
def move_paddle (paddle : Paddle) (direction : Int) : Paddle :=
  let p1 : Paddle := { paddle with y := paddle.y + direction * PADDLE_SPEED }
  let p2 : Paddle := if p1.y < 0 then { p1 with y := 0 } else p1
  if p2.y + PADDLE_HEIGHT > SCREEN_HEIGHT then
    { p2 with y := SCREEN_HEIGHT - PADDLE_HEIGHT }
  else p2

/-- The paddles after each call of a sequence of `move_paddle` calls, oldest
first: one entry per call. -/
def move_paddle_trace (paddle : Paddle) : List Int → List Paddle
  | [] => []
  | d :: ds => move_paddle paddle d :: move_paddle_trace (move_paddle paddle d) ds

/-- A paddle lies inside the arena: `0 ≤ y ≤ SCREEN_HEIGHT - PADDLE_HEIGHT`. -/
def paddle_in_range (p : Paddle) : Prop :=
  0 ≤ p.y ∧ p.y ≤ SCREEN_HEIGHT - PADDLE_HEIGHT

instance (p : Paddle) : Decidable (paddle_in_range p) := by
  unfold paddle_in_range; infer_instance

/-- The clamp of the specification, `min (max v lo) hi`. -/
def clamp_ref (v lo hi : Int) : Int := min (max v lo) hi

/-! ## `move_ball` -/

/-- Lines 32-33: `x += dx; y += dy`. -/
def ball_integrate (b : Ball) : Ball :=
  { b with x := b.x + b.dx, y := b.y + b.dy }

/-- The condition of the wall `if` (line 36). -/
def wall_hit (b : Ball) : Prop :=
  b.y ≤ 0 ∨ b.y + BALL_SIZE ≥ SCREEN_HEIGHT

instance (b : Ball) : Decidable (wall_hit b) := by
  unfold wall_hit; infer_instance

/-- Lines 36-38: negate `dy` on a wall hit. -/
def ball_wall_bounce (b : Ball) : Ball :=
  if wall_hit b then { b with dy := -b.dy } else b

/-- The condition of the paddle `if` (lines 41-42). -/
def paddle_hit (b : Ball) (left_paddle right_paddle : Paddle) : Prop :=
  (b.x ≤ left_paddle.x + PADDLE_WIDTH ∧ b.y + BALL_SIZE ≥ left_paddle.y
      ∧ b.y ≤ left_paddle.y + PADDLE_HEIGHT) ∨
  (b.x + BALL_SIZE ≥ right_paddle.x ∧ b.y + BALL_SIZE ≥ right_paddle.y
      ∧ b.y ≤ right_paddle.y + PADDLE_HEIGHT)

instance (b : Ball) (l r : Paddle) : Decidable (paddle_hit b l r) := by
  unfold paddle_hit; infer_instance

/-- Lines 41-44: negate `dx` on a paddle hit. -/
def ball_paddle_bounce (b : Ball) (left_paddle right_paddle : Paddle) : Ball :=
  if paddle_hit b left_paddle right_paddle then { b with dx := -b.dx } else b

/-- The condition of the reset `if` (line 47). -/
def out_of_bounds (b : Ball) : Prop :=
  b.x < 0 ∨ b.x > SCREEN_WIDTH

instance (b : Ball) : Decidable (out_of_bounds b) := by
  unfold out_of_bounds; infer_instance

/-- Lines 47-52: recentre the ball and rebuild both velocity components from
their signs. -/
def ball_reset (b : Ball) : Ball :=
  if out_of_bounds b then
    { b with
      x := SCREEN_WIDTH / 2 - BALL_SIZE / 2
      y := SCREEN_HEIGHT / 2 - BALL_SIZE / 2
      dx := (if b.dx > 0 then 1 else -1) * BALL_SPEED
      dy := (if b.dy > 0 then 1 else -1) * BALL_SPEED }
  else b

/-- The ball as it stands right before the reset `if` of `move_ball`. -/
def ball_before_reset (ball : Ball) (left_paddle right_paddle : Paddle) : Ball :=
  ball_paddle_bounce (ball_wall_bounce (ball_integrate ball)) left_paddle right_paddle

/-- The function `move_ball`: integrate, wall bounce, paddle bounce, reset, in
source order.  The paddles are only read. -/
def move_ball (ball : Ball) (left_paddle right_paddle : Paddle) : Ball :=
  ball_reset (ball_before_reset ball left_paddle right_paddle)

/-- Both velocity components have magnitude `BALL_SPEED`. -/
def speed_ok (b : Ball) : Prop :=
  |b.dx| = BALL_SPEED ∧ |b.dy| = BALL_SPEED

instance (b : Ball) : Decidable (speed_ok b) := by
  unfold speed_ok; infer_instance

/-! ## The session state of `main` -/

/-- The two paddles and the ball owned by the loop of `main`. -/
structure Game where
  left_paddle : Paddle
  right_paddle : Paddle
  ball : Ball
  deriving DecidableEq, Repr

/-- The declarations at lines 119-121. -/
def initial_game : Game :=
  { left_paddle := ⟨10, SCREEN_HEIGHT / 2 - PADDLE_HEIGHT / 2, PADDLE_WIDTH, PADDLE_HEIGHT⟩
    right_paddle :=
      ⟨SCREEN_WIDTH - 20, SCREEN_HEIGHT / 2 - PADDLE_HEIGHT / 2, PADDLE_WIDTH, PADDLE_HEIGHT⟩
    ball := ⟨SCREEN_WIDTH / 2 - BALL_SIZE / 2, SCREEN_HEIGHT / 2 - BALL_SIZE / 2,
      BALL_SPEED, BALL_SPEED, BALL_SIZE⟩ }

/-- One state-changing call made by the loop body (lines 140-146). -/
inductive Action where
  | left_move (direction : Int)
  | right_move (direction : Int)
  | ball_step
  deriving DecidableEq, Repr

/-- The effect of one call on the session state. -/
def Game.apply (g : Game) : Action → Game
  | .left_move d => { g with left_paddle := move_paddle g.left_paddle d }
  | .right_move d => { g with right_paddle := move_paddle g.right_paddle d }
  | .ball_step => { g with ball := move_ball g.ball g.left_paddle g.right_paddle }

/-- Any interleaving of paddle moves and ball steps, applied left to right. -/
def Game.run (g : Game) (actions : List Action) : Game :=
  actions.foldl Game.apply g

/-! ## Frame pacer and rate meter (lines 126-128, 163-173) -/

/-- The modulus of `Uint32` arithmetic. -/
def UINT32_MOD : Nat := 2 ^ 32

/-- Subtraction of two `Uint32` values, wrapping modulo `2 ^ 32`. -/
def u32_sub (a b : Nat) : Nat :=
  (a % UINT32_MOD + (UINT32_MOD - b % UINT32_MOD)) % UINT32_MOD

/-- The variables `frame_count`, `fps` and `fps_timer` of `main`. -/
structure FpsMeter where
  frame_count : Int
  fps : Int
  fps_timer : Nat
  deriving DecidableEq, Repr

/-- The condition of the `if` at line 164, for the tick read there. -/
def fps_rollover (m : FpsMeter) (now : Nat) : Prop :=
  u32_sub now m.fps_timer ≥ 1000

instance (m : FpsMeter) (now : Nat) : Decidable (fps_rollover m now) := by
  unfold fps_rollover; infer_instance

/-- Lines 163-168.  `now` is the tick read by the condition and `now_reset`
the tick read by the assignment to `fps_timer` (two calls of `SDL_GetTicks`). -/
def fps_update (m : FpsMeter) (now now_reset : Nat) : FpsMeter :=
  let m1 : FpsMeter := { m with frame_count := m.frame_count + 1 }
  if fps_rollover m1 now then
    { frame_count := 0, fps := m1.frame_count, fps_timer := now_reset }
  else m1

/-- The bookkeeping of a sequence of frames, one pair of tick readings each. -/
def fps_run (m : FpsMeter) (ticks : List (Nat × Nat)) : FpsMeter :=
  ticks.foldl (fun s t => fps_update s t.1 t.2) m

/-- Lines 170-173: the argument of the `SDL_Delay` call, or `none` when the
call is skipped.  `FRAME_DELAY` is converted to `Uint32` by the comparison and
by the subtraction. -/
def frame_sleep (frame_time : Nat) : Option Nat :=
  if FRAME_DELAY > frame_time then some (u32_sub FRAME_DELAY frame_time) else none

/-- The time slept at the end of a frame: zero when `SDL_Delay` is not called. -/
def sleep_duration (frame_time : Nat) : Nat :=
  (frame_sleep frame_time).getD 0

/-! ## Helper lemmas -/

theorem abs_eq_ball_speed (v : Int) : |v| = BALL_SPEED ↔ v = 5 ∨ v = -5 := by
  unfold BALL_SPEED
  exact abs_eq (by norm_num)

theorem move_paddle_y (p : Paddle) (d : Int) :
    0 ≤ (move_paddle p d).y ∧ (move_paddle p d).y ≤ 500 := by
  simp only [move_paddle, PADDLE_HEIGHT, SCREEN_HEIGHT, PADDLE_SPEED]
  split_ifs with h1 h2 h2 <;> simp only at h1 h2 ⊢ <;> omega

theorem ball_wall_bounce_fields (b : Ball) :
    (ball_wall_bounce b).x = b.x ∧ (ball_wall_bounce b).y = b.y ∧
    (ball_wall_bounce b).dx = b.dx ∧ (ball_wall_bounce b).size = b.size ∧
    (ball_wall_bounce b).dy = if wall_hit b then -b.dy else b.dy := by
  unfold ball_wall_bounce
  split_ifs <;> simp

theorem ball_paddle_bounce_fields (b : Ball) (l r : Paddle) :
    (ball_paddle_bounce b l r).x = b.x ∧ (ball_paddle_bounce b l r).y = b.y ∧
    (ball_paddle_bounce b l r).dy = b.dy ∧ (ball_paddle_bounce b l r).size = b.size ∧
    (ball_paddle_bounce b l r).dx = if paddle_hit b l r then -b.dx else b.dx := by
  unfold ball_paddle_bounce
  split_ifs <;> simp

theorem paddle_hit_wall_bounce (b : Ball) (l r : Paddle) :
    paddle_hit (ball_wall_bounce b) l r ↔ paddle_hit b l r := by
  obtain ⟨hx, hy, -, -, -⟩ := ball_wall_bounce_fields b
  simp only [paddle_hit, hx, hy]

theorem ball_before_reset_fields (b : Ball) (l r : Paddle) :
    (ball_before_reset b l r).x = b.x + b.dx ∧
    (ball_before_reset b l r).y = b.y + b.dy ∧
    (ball_before_reset b l r).dx =
      (if paddle_hit (ball_integrate b) l r then -b.dx else b.dx) ∧
    (ball_before_reset b l r).dy =
      (if wall_hit (ball_integrate b) then -b.dy else b.dy) := by
  obtain ⟨px, py, pdy, -, pdx⟩ :=
    ball_paddle_bounce_fields (ball_wall_bounce (ball_integrate b)) l r
  obtain ⟨wx, wy, wdx, -, wdy⟩ := ball_wall_bounce_fields (ball_integrate b)
  have hp := paddle_hit_wall_bounce (ball_integrate b) l r
  unfold ball_before_reset
  refine ⟨by rw [px, wx]; rfl, by rw [py, wy]; rfl, ?_, by rw [pdy, wdy]; rfl⟩
  rw [pdx, wdx]
  by_cases h : paddle_hit (ball_integrate b) l r
  · rw [if_pos h, if_pos (hp.mpr h)]; rfl
  · rw [if_neg h, if_neg (fun h2 => h (hp.mp h2))]; rfl

theorem ball_reset_velocity (b : Ball) (hx : b.dx = 5 ∨ b.dx = -5)
    (hy : b.dy = 5 ∨ b.dy = -5) :
    (ball_reset b).dx = b.dx ∧ (ball_reset b).dy = b.dy := by
  unfold ball_reset BALL_SPEED
  split_ifs <;> simp <;> omega

theorem ball_reset_dx (b : Ball) (hx : b.dx = 5 ∨ b.dx = -5) :
    (ball_reset b).dx = b.dx := by
  unfold ball_reset BALL_SPEED
  split_ifs <;> simp <;> omega

theorem ball_reset_dy (b : Ball) (hy : b.dy = 5 ∨ b.dy = -5) :
    (ball_reset b).dy = b.dy := by
  unfold ball_reset BALL_SPEED
  split_ifs <;> simp <;> omega

theorem move_ball_dx (b : Ball) (l r : Paddle) (hx : b.dx = 5 ∨ b.dx = -5) :
    (move_ball b l r).dx =
      if paddle_hit (ball_integrate b) l r then -b.dx else b.dx := by
  obtain ⟨-, -, hdx, -⟩ := ball_before_reset_fields b l r
  unfold move_ball
  rw [ball_reset_dx _ (by rw [hdx]; split_ifs <;> omega), hdx]

theorem move_ball_dy (b : Ball) (l r : Paddle) (hy : b.dy = 5 ∨ b.dy = -5) :
    (move_ball b l r).dy =
      if wall_hit (ball_integrate b) then -b.dy else b.dy := by
  obtain ⟨-, -, -, hdy⟩ := ball_before_reset_fields b l r
  unfold move_ball
  rw [ball_reset_dy _ (by rw [hdy]; split_ifs <;> omega), hdy]

theorem move_ball_speed_ok (b : Ball) (l r : Paddle) (h : speed_ok b) :
    speed_ok (move_ball b l r) := by
  unfold speed_ok at h ⊢
  rw [abs_eq_ball_speed, abs_eq_ball_speed] at h ⊢
  rw [move_ball_dx b l r h.1, move_ball_dy b l r h.2]
  constructor <;> split_ifs <;> omega

theorem game_apply_speed_ok (g : Game) (a : Action) (h : speed_ok g.ball) :
    speed_ok (g.apply a).ball := by
  cases a with
  | left_move d => exact h
  | right_move d => exact h
  | ball_step => exact move_ball_speed_ok _ _ _ h

theorem game_run_speed_ok (g : Game) (actions : List Action) (h : speed_ok g.ball) :
    speed_ok (g.run actions).ball := by
  induction actions generalizing g with
  | nil => exact h
  | cons a as ih => exact ih (g.apply a) (game_apply_speed_ok g a h)

theorem fps_update_of_not_rollover (m : FpsMeter) (now now_reset : Nat)
    (h : ¬ fps_rollover m now) :
    fps_update m now now_reset = ⟨m.frame_count + 1, m.fps, m.fps_timer⟩ := by
  unfold fps_update
  have h1 : ¬ fps_rollover { m with frame_count := m.frame_count + 1 } now := h
  simp only [if_neg h1]

theorem fps_update_of_rollover (m : FpsMeter) (now now_reset : Nat)
    (h : fps_rollover m now) :
    fps_update m now now_reset = ⟨0, m.frame_count + 1, now_reset⟩ := by
  unfold fps_update
  have h1 : fps_rollover { m with frame_count := m.frame_count + 1 } now := h
  simp only [if_pos h1]

theorem fps_run_append (m : FpsMeter) (ts us : List (Nat × Nat)) :
    fps_run m (ts ++ us) = fps_run (fps_run m ts) us := by
  unfold fps_run
  exact List.foldl_append _ _ _ _

theorem fps_run_quiet (ticks : List (Nat × Nat)) :
    ∀ m : FpsMeter, (∀ p ∈ ticks, ¬ u32_sub p.1 m.fps_timer ≥ 1000) →
      fps_run m ticks = ⟨m.frame_count + ticks.length, m.fps, m.fps_timer⟩ := by
  induction ticks with
  | nil => intro m _; simp [fps_run]
  | cons t ts ih =>
    intro m h
    have ht : ¬ fps_rollover m t.1 := h t (List.mem_cons_self _ _)
    have hstep : fps_run m (t :: ts) = fps_run (fps_update m t.1 t.2) ts := rfl
    rw [hstep, fps_update_of_not_rollover m t.1 t.2 ht, ih]
    · simp only [List.length_cons, Nat.cast_add, Nat.cast_one, FpsMeter.mk.injEq, and_true]
      omega
    · intro p hp
      exact h p (List.mem_cons_of_mem _ hp)

/-! ## Paddle motion -/

/-- C1. After every call of any finite sequence of `move_paddle` calls, from any
paddle and with any integer directions, the paddle satisfies
`0 ≤ y ≤ SCREEN_HEIGHT - PADDLE_HEIGHT = 500`; the trace has one state per call. -/
theorem paddle_bound_invariant (p : Paddle) (ds : List Int) :
    (move_paddle_trace p ds).length = ds.length ∧
    SCREEN_HEIGHT - PADDLE_HEIGHT = 500 ∧
    ∀ q ∈ move_paddle_trace p ds, 0 ≤ q.y ∧ q.y ≤ SCREEN_HEIGHT - PADDLE_HEIGHT := by
  refine ⟨?_, by decide, ?_⟩
  · induction ds generalizing p with
    | nil => rfl
    | cons d ds ih => simp [move_paddle_trace, ih]
  · induction ds generalizing p with
    | nil => intro q hq; simp [move_paddle_trace] at hq
    | cons d ds ih =>
      intro q hq
      simp only [move_paddle_trace, List.mem_cons] at hq
      rcases hq with rfl | hq
      · have h := move_paddle_y p d
        simpa [SCREEN_HEIGHT, PADDLE_HEIGHT] using h
      · exact ih _ q hq

theorem paddle_bound_invariant_witness :
    (⟨10, 0, 10, 100⟩ : Paddle) ∈ move_paddle_trace ⟨10, -37, 10, 100⟩ [0, 100, -3] ∧
    0 ≤ (⟨10, 0, 10, 100⟩ : Paddle).y ∧
    (⟨10, 0, 10, 100⟩ : Paddle).y ≤ SCREEN_HEIGHT - PADDLE_HEIGHT :=
  ⟨by decide,
   (paddle_bound_invariant ⟨10, -37, 10, 100⟩ [0, 100, -3]).2.2 ⟨10, 0, 10, 100⟩ (by decide)⟩

/-- C3. `move_paddle` is the clamp of the specification: the new `y` is
`min (max (y + d * PADDLE_SPEED) 0) (SCREEN_HEIGHT - PADDLE_HEIGHT)`, that is
`clamp (y + 10 * d) 0 500`, and `x`, `w`, `h` are unchanged. -/
theorem move_paddle_eq_clamp (p : Paddle) (d : Int) :
    (move_paddle p d).y
        = clamp_ref (p.y + d * PADDLE_SPEED) 0 (SCREEN_HEIGHT - PADDLE_HEIGHT) ∧
    (move_paddle p d).y = min (max (p.y + 10 * d) 0) 500 ∧
    (move_paddle p d).x = p.x ∧ (move_paddle p d).w = p.w ∧ (move_paddle p d).h = p.h := by
  simp only [move_paddle, clamp_ref, PADDLE_HEIGHT, SCREEN_HEIGHT, PADDLE_SPEED]
  refine ⟨?_, ?_, ?_, ?_, ?_⟩ <;>
    split_ifs with h1 h2 h2 <;> simp only at h1 h2 ⊢ <;> omega

/-! ## Ball physics -/

/-- C2. One `move_ball` step keeps `|dx| = BALL_SPEED = 5` and `|dy| = 5`, for
every ball that has them and every pair of paddles; the initial ball has them,
so every state reached from the initial session state by any interleaving of
paddle moves and ball steps has them too. -/
theorem ball_speed_invariant :
    BALL_SPEED = 5 ∧
    (∀ (b : Ball) (l r : Paddle), |b.dx| = BALL_SPEED → |b.dy| = BALL_SPEED →
      |(move_ball b l r).dx| = BALL_SPEED ∧ |(move_ball b l r).dy| = BALL_SPEED) ∧
    (initial_game.ball.dx = 5 ∧ initial_game.ball.dy = 5) ∧
    (∀ actions : List Action,
      |(initial_game.run actions).ball.dx| = BALL_SPEED ∧
      |(initial_game.run actions).ball.dy| = BALL_SPEED) :=
  ⟨rfl, fun b l r hx hy => move_ball_speed_ok b l r ⟨hx, hy⟩, ⟨rfl, rfl⟩,
   fun actions => game_run_speed_ok initial_game actions (by decide)⟩

theorem ball_speed_invariant_witness :
    |(⟨795, 3, 5, -5, 10⟩ : Ball).dx| = BALL_SPEED ∧
    |(⟨795, 3, 5, -5, 10⟩ : Ball).dy| = BALL_SPEED ∧
    |(move_ball ⟨795, 3, 5, -5, 10⟩ ⟨10, 0, 10, 100⟩ ⟨780, 0, 10, 100⟩).dx| = BALL_SPEED ∧
    |(move_ball ⟨795, 3, 5, -5, 10⟩ ⟨10, 0, 10, 100⟩ ⟨780, 0, 10, 100⟩).dy| = BALL_SPEED :=
  ⟨by decide, by decide,
   ball_speed_invariant.2.1 ⟨795, 3, 5, -5, 10⟩ ⟨10, 0, 10, 100⟩ ⟨780, 0, 10, 100⟩
     (by decide) (by decide)⟩

/-- C4. For a ball with `|dy| = 5` and any paddles, one `move_ball` step ends
with `dy` negated exactly when the integrated position has `y + dy ≤ 0` or
`y + dy + BALL_SIZE ≥ SCREEN_HEIGHT`, and with `dy` unchanged otherwise; a ball
at `y = 0` with `dy = -5` ends with `dy = 5`, and a ball at
`y = SCREEN_HEIGHT - BALL_SIZE = 590` with `dy = 5` ends with `dy = -5`. -/
theorem wall_bounce_dy (b : Ball) (l r : Paddle) (h : |b.dy| = BALL_SPEED) :
    ((move_ball b l r).dy = -b.dy ↔
      (b.y + b.dy ≤ 0 ∨ b.y + b.dy + BALL_SIZE ≥ SCREEN_HEIGHT)) ∧
    (¬ (b.y + b.dy ≤ 0 ∨ b.y + b.dy + BALL_SIZE ≥ SCREEN_HEIGHT) →
      (move_ball b l r).dy = b.dy) ∧
    (b.y = 0 → b.dy = -5 → (move_ball b l r).dy = 5) ∧
    (b.y = SCREEN_HEIGHT - BALL_SIZE → b.dy = 5 → (move_ball b l r).dy = -5) ∧
    SCREEN_HEIGHT - BALL_SIZE = 590 := by
  rw [abs_eq_ball_speed] at h
  rw [move_ball_dy b l r h]
  simp only [wall_hit, ball_integrate, BALL_SIZE, SCREEN_HEIGHT]
  refine ⟨?_, ?_, ?_, ?_, by decide⟩
  · split_ifs with hw
    · simp [hw]
    · constructor
      · intro he; omega
      · intro hc; exact absurd hc hw
  · intro hn; rw [if_neg hn]
  · intro h0 h5; rw [if_pos (by omega)]; omega
  · intro h0 h5; rw [if_pos (by omega)]; omega

theorem wall_bounce_dy_witness :
    |(⟨400, 0, 5, -5, 10⟩ : Ball).dy| = BALL_SPEED ∧
    (move_ball ⟨400, 0, 5, -5, 10⟩ ⟨10, 250, 10, 100⟩ ⟨780, 250, 10, 100⟩).dy = 5 :=
  ⟨by decide,
   (wall_bounce_dy ⟨400, 0, 5, -5, 10⟩ ⟨10, 250, 10, 100⟩ ⟨780, 250, 10, 100⟩
     (by decide)).2.2.1 rfl rfl⟩

/-- C5 fails as stated: a ball at `x = SCREEN_WIDTH + 1 = 801` moving left
(`dx = -5`) is integrated to `x = 796` before the bounds test, so it is not
recentred. -/
theorem reset_from_outside_counterexample :
    (⟨801, 300, -5, 5, 10⟩ : Ball).x = SCREEN_WIDTH + 1 ∧
    speed_ok ⟨801, 300, -5, 5, 10⟩ ∧
    paddle_in_range ⟨10, 250, 10, 100⟩ ∧ paddle_in_range ⟨780, 250, 10, 100⟩ ∧
    move_ball ⟨801, 300, -5, 5, 10⟩ ⟨10, 250, 10, 100⟩ ⟨780, 250, 10, 100⟩
      = ⟨796, 305, 5, 5, 10⟩ ∧
    (move_ball ⟨801, 300, -5, 5, 10⟩ ⟨10, 250, 10, 100⟩ ⟨780, 250, 10, 100⟩).x
      ≠ SCREEN_WIDTH / 2 - BALL_SIZE / 2 := by
  decide

/-- C5, amended. A ball that starts a step at `x = SCREEN_WIDTH + 1` with
`dx = +5` and `|dy| = 5` is out of bounds at the reset test and ends the step at
`x = SCREEN_WIDTH / 2 - BALL_SIZE / 2 = 395`, `y = SCREEN_HEIGHT / 2 -
BALL_SIZE / 2 = 295`, with `dx` and `dy` of magnitude 5 and of the sign they
had right before the reset; with `dx = -5` it is integrated to `x = 796`, is
not out of bounds and is not recentred. -/
theorem reset_from_outside (b : Ball) (l r : Paddle)
    (hx : b.x = SCREEN_WIDTH + 1) (hdy : |b.dy| = BALL_SPEED) :
    (b.dx = BALL_SPEED →
      out_of_bounds (ball_before_reset b l r) ∧
      (move_ball b l r).x = SCREEN_WIDTH / 2 - BALL_SIZE / 2 ∧
      (move_ball b l r).x = 395 ∧
      (move_ball b l r).y = SCREEN_HEIGHT / 2 - BALL_SIZE / 2 ∧
      (move_ball b l r).y = 295 ∧
      |(move_ball b l r).dx| = BALL_SPEED ∧ |(move_ball b l r).dy| = BALL_SPEED ∧
      Int.sign (move_ball b l r).dx = Int.sign (ball_before_reset b l r).dx ∧
      Int.sign (move_ball b l r).dy = Int.sign (ball_before_reset b l r).dy) ∧
    (b.dx = -BALL_SPEED →
      ¬ out_of_bounds (ball_before_reset b l r) ∧
      (move_ball b l r).x = 796 ∧ (move_ball b l r).y = b.y + b.dy) := by
  obtain ⟨px, py, pdx, pdy⟩ := ball_before_reset_fields b l r
  rw [abs_eq_ball_speed] at hdy
  simp only [SCREEN_WIDTH] at hx
  constructor
  · intro hdx
    simp only [BALL_SPEED] at hdx
    have hs : speed_ok (move_ball b l r) :=
      move_ball_speed_ok b l r ⟨by rw [abs_eq_ball_speed]; omega,
        by rw [abs_eq_ball_speed]; exact hdy⟩
    have hoob : out_of_bounds (ball_before_reset b l r) := by
      unfold out_of_bounds SCREEN_WIDTH; rw [px]; omega
    have hvx : (ball_before_reset b l r).dx = 5 ∨ (ball_before_reset b l r).dx = -5 := by
      rw [pdx]; split_ifs <;> omega
    have hvy : (ball_before_reset b l r).dy = 5 ∨ (ball_before_reset b l r).dy = -5 := by
      rw [pdy]; split_ifs <;> omega
    have hkeep := ball_reset_velocity (ball_before_reset b l r) hvx hvy
    have hpos : (move_ball b l r).x = SCREEN_WIDTH / 2 - BALL_SIZE / 2 ∧
        (move_ball b l r).y = SCREEN_HEIGHT / 2 - BALL_SIZE / 2 := by
      unfold move_ball ball_reset
      rw [if_pos hoob]
      exact ⟨rfl, rfl⟩
    refine ⟨hoob, hpos.1, by rw [hpos.1]; decide, hpos.2, by rw [hpos.2]; decide,
      hs.1, hs.2, ?_, ?_⟩
    · exact congrArg Int.sign hkeep.1
    · exact congrArg Int.sign hkeep.2
  · intro hdx
    simp only [BALL_SPEED] at hdx
    have hin : ¬ out_of_bounds (ball_before_reset b l r) := by
      unfold out_of_bounds SCREEN_WIDTH; rw [px]; omega
    have hfin : move_ball b l r = ball_before_reset b l r := by
      unfold move_ball ball_reset
      rw [if_neg hin]
    refine ⟨hin, ?_, ?_⟩
    · rw [hfin, px]; omega
    · rw [hfin, py]

theorem reset_from_outside_witness :
    (⟨801, 300, 5, 5, 10⟩ : Ball).x = SCREEN_WIDTH + 1 ∧
    |(⟨801, 300, 5, 5, 10⟩ : Ball).dy| = BALL_SPEED ∧
    (move_ball ⟨801, 300, 5, 5, 10⟩ ⟨10, 250, 10, 100⟩ ⟨780, 250, 10, 100⟩).x = 395 :=
  ⟨by decide, by decide,
   ((reset_from_outside ⟨801, 300, 5, 5, 10⟩ ⟨10, 250, 10, 100⟩ ⟨780, 250, 10, 100⟩
      (by decide) (by decide)).1 (by decide)).2.2.1⟩

/-- C6 fails as stated: with the left paddle at `(10, 250)` and the ball at
`(20, 280)` moving right (`dx = +5`), the integrated `x = 25` is past the
paddle edge `20`, neither paddle test holds and `dx` stays `+5`. -/
theorem left_paddle_example_counterexample :
    speed_ok ⟨20, 280, 5, 5, 10⟩ ∧
    paddle_in_range ⟨SCREEN_WIDTH - 20, 250, 10, 100⟩ ∧
    (move_ball ⟨20, 280, 5, 5, 10⟩ ⟨10, 250, 10, 100⟩ ⟨SCREEN_WIDTH - 20, 250, 10, 100⟩).dx
      = 5 ∧
    (move_ball ⟨20, 280, 5, 5, 10⟩ ⟨10, 250, 10, 100⟩ ⟨SCREEN_WIDTH - 20, 250, 10, 100⟩).dx
      ≠ -(⟨20, 280, 5, 5, 10⟩ : Ball).dx := by
  decide

/-- C6, amended. With the left paddle at `x = 10, y = 250, w = 10, h = 100` and
the ball at `x = 20, y = 280` with `|dy| = 5`: when `dx = -5`, one `move_ball`
step ends with `dx` negated (`dx = 5`), for every right paddle; when `dx = +5`
and the right paddle is at `x = SCREEN_WIDTH - 20`, the step leaves `dx`
unchanged. -/
theorem left_paddle_example (b : Ball) (r : Paddle)
    (hx : b.x = 20) (hy : b.y = 280) (hdy : |b.dy| = BALL_SPEED) :
    (b.dx = -5 →
      (move_ball b ⟨10, 250, 10, 100⟩ r).dx = -b.dx ∧
      (move_ball b ⟨10, 250, 10, 100⟩ r).dx = 5) ∧
    (b.dx = 5 → r.x = SCREEN_WIDTH - 20 →
      (move_ball b ⟨10, 250, 10, 100⟩ r).dx = b.dx) := by
  rw [abs_eq_ball_speed] at hdy
  constructor
  · intro hdx
    rw [move_ball_dx b _ r (Or.inr hdx)]
    have hit : paddle_hit (ball_integrate b) ⟨10, 250, 10, 100⟩ r := by
      simp only [paddle_hit, ball_integrate, PADDLE_WIDTH, BALL_SIZE, PADDLE_HEIGHT]
      left; omega
    rw [if_pos hit]
    exact ⟨rfl, by omega⟩
  · intro hdx hr
    rw [move_ball_dx b _ r (Or.inl hdx)]
    have miss : ¬ paddle_hit (ball_integrate b) ⟨10, 250, 10, 100⟩ r := by
      simp only [paddle_hit, ball_integrate, PADDLE_WIDTH, BALL_SIZE, PADDLE_HEIGHT]
      simp only [SCREEN_WIDTH] at hr
      omega
    rw [if_neg miss]

theorem left_paddle_example_witness :
    (⟨20, 280, -5, 5, 10⟩ : Ball).x = 20 ∧ (⟨20, 280, -5, 5, 10⟩ : Ball).y = 280 ∧
    |(⟨20, 280, -5, 5, 10⟩ : Ball).dy| = BALL_SPEED ∧
    (move_ball ⟨20, 280, -5, 5, 10⟩ ⟨10, 250, 10, 100⟩ ⟨780, 250, 10, 100⟩).dx = 5 :=
  ⟨rfl, rfl, by decide,
   ((left_paddle_example ⟨20, 280, -5, 5, 10⟩ ⟨780, 250, 10, 100⟩ rfl rfl (by decide)).1
      rfl).2⟩

/-- C9. For a ball with `|dx| = 5` and any two paddles, with `(x + dx, y + dy)`
the integrated position, one `move_ball` step ends with `dx` negated if and
only if the left test or the right test holds; when both hold `dx` is negated
once (not restored), and when neither holds `dx` is unchanged. -/
theorem paddle_bounce_iff (b : Ball) (l r : Paddle) (h : |b.dx| = BALL_SPEED) :
    ((move_ball b l r).dx = -b.dx ↔
      ((b.x + b.dx ≤ l.x + PADDLE_WIDTH ∧ b.y + b.dy + BALL_SIZE ≥ l.y
          ∧ b.y + b.dy ≤ l.y + PADDLE_HEIGHT) ∨
       (b.x + b.dx + BALL_SIZE ≥ r.x ∧ b.y + b.dy + BALL_SIZE ≥ r.y
          ∧ b.y + b.dy ≤ r.y + PADDLE_HEIGHT))) ∧
    ((b.x + b.dx ≤ l.x + PADDLE_WIDTH ∧ b.y + b.dy + BALL_SIZE ≥ l.y
          ∧ b.y + b.dy ≤ l.y + PADDLE_HEIGHT) ∧
     (b.x + b.dx + BALL_SIZE ≥ r.x ∧ b.y + b.dy + BALL_SIZE ≥ r.y
          ∧ b.y + b.dy ≤ r.y + PADDLE_HEIGHT) →
      (move_ball b l r).dx = -b.dx ∧ (move_ball b l r).dx ≠ b.dx) ∧
    (¬ (b.x + b.dx ≤ l.x + PADDLE_WIDTH ∧ b.y + b.dy + BALL_SIZE ≥ l.y
          ∧ b.y + b.dy ≤ l.y + PADDLE_HEIGHT) ∧
     ¬ (b.x + b.dx + BALL_SIZE ≥ r.x ∧ b.y + b.dy + BALL_SIZE ≥ r.y
          ∧ b.y + b.dy ≤ r.y + PADDLE_HEIGHT) →
      (move_ball b l r).dx = b.dx) := by
  rw [abs_eq_ball_speed] at h
  rw [move_ball_dx b l r h]
  have hp : paddle_hit (ball_integrate b) l r ↔
      ((b.x + b.dx ≤ l.x + PADDLE_WIDTH ∧ b.y + b.dy + BALL_SIZE ≥ l.y
          ∧ b.y + b.dy ≤ l.y + PADDLE_HEIGHT) ∨
       (b.x + b.dx + BALL_SIZE ≥ r.x ∧ b.y + b.dy + BALL_SIZE ≥ r.y
          ∧ b.y + b.dy ≤ r.y + PADDLE_HEIGHT)) := Iff.rfl
  refine ⟨?_, ?_, ?_⟩
  · rw [← hp]
    split_ifs with hh
    · simp [hh]
    · constructor
      · intro he; omega
      · intro hc; exact absurd hc hh
  · intro hb
    rw [if_pos (hp.mpr (Or.inl hb.1))]
    exact ⟨rfl, by omega⟩
  · intro hn
    rw [if_neg (fun hc => (hp.mp hc).elim hn.1 hn.2)]

theorem paddle_bounce_iff_witness :
    |(⟨400, 300, 5, -5, 10⟩ : Ball).dx| = BALL_SPEED ∧
    (move_ball ⟨400, 300, 5, -5, 10⟩ ⟨400, 250, 10, 100⟩ ⟨400, 250, 10, 100⟩).dx = -5 ∧
    (move_ball ⟨400, 300, 5, -5, 10⟩ ⟨400, 250, 10, 100⟩ ⟨400, 250, 10, 100⟩).dx ≠ 5 :=
  ⟨by decide,
   (paddle_bounce_iff ⟨400, 300, 5, -5, 10⟩ ⟨400, 250, 10, 100⟩ ⟨400, 250, 10, 100⟩
      (by decide)).2.1 (by decide)⟩

/-- C10. There are a ball with `|dx| = |dy| = 5` and in-range paddles at the
session `x` positions (left `10`, right `SCREEN_WIDTH - 20`), namely the ball
`x = 20, y = 280, dx = -5, dy = 5` with the left paddle at `y = 250`, for which
two consecutive `move_ball` steps both negate `dx` with no reset in either, so
that `dx` is back at its original value and the ball still satisfies the left
paddle test; the paddle test does not read the velocity. -/
theorem stale_paddle_rebounce :
    ∃ (b : Ball) (l r : Paddle),
      b = ⟨20, 280, -5, 5, 10⟩ ∧ l.y = 250 ∧
      speed_ok b ∧ paddle_in_range l ∧ paddle_in_range r ∧
      l.x = 10 ∧ r.x = SCREEN_WIDTH - 20 ∧
      (move_ball b l r).dx = -b.dx ∧
      ¬ out_of_bounds (ball_before_reset b l r) ∧
      (move_ball (move_ball b l r) l r).dx = -(move_ball b l r).dx ∧
      ¬ out_of_bounds (ball_before_reset (move_ball b l r) l r) ∧
      (move_ball (move_ball b l r) l r).dx = b.dx ∧
      ((move_ball (move_ball b l r) l r).x ≤ l.x + PADDLE_WIDTH ∧
       (move_ball (move_ball b l r) l r).y + BALL_SIZE ≥ l.y ∧
       (move_ball (move_ball b l r) l r).y ≤ l.y + PADDLE_HEIGHT) ∧
      (∀ (c : Ball) (vx vy : Int) (p q : Paddle),
        paddle_hit { c with dx := vx, dy := vy } p q ↔ paddle_hit c p q) :=
  ⟨⟨20, 280, -5, 5, 10⟩, ⟨10, 250, 10, 100⟩, ⟨780, 250, 10, 100⟩,
   rfl, rfl, by decide, by decide, by decide, rfl, by decide, by decide, by decide,
   by decide, by decide, by decide, by decide, fun _ _ _ _ _ => Iff.rfl⟩

/-! ## Frame pacer and rate meter -/

/-- C7. Starting from a window reset (`frame_count = 0`), if 59 frames pass
without the rollover condition `now - fps_timer ≥ 1000` (in `Uint32`
arithmetic) and the condition holds at the 60th, so that the counter has been
incremented exactly 60 times, that step publishes `fps = 60`, sets
`frame_count` to `0` and sets `fps_timer` to the tick read at the reset; a
rollover step always publishes the incremented counter, and on every step
without rollover `fps` and `fps_timer` are unchanged and `frame_count` grows by
exactly 1. -/
theorem rate_meter (m : FpsMeter) :
    (∀ (ticks : List (Nat × Nat)) (now now_reset : Nat),
      m.frame_count = 0 → ticks.length = 59 →
      (∀ p ∈ ticks, ¬ fps_rollover m p.1) → fps_rollover m now →
      fps_run m (ticks ++ [(now, now_reset)]) = ⟨0, 60, now_reset⟩) ∧
    (∀ now now_reset : Nat, fps_rollover m now →
      fps_update m now now_reset = ⟨0, m.frame_count + 1, now_reset⟩) ∧
    (∀ now now_reset : Nat, ¬ fps_rollover m now →
      (fps_update m now now_reset).fps = m.fps ∧
      (fps_update m now now_reset).fps_timer = m.fps_timer ∧
      (fps_update m now now_reset).frame_count = m.frame_count + 1) := by
  refine ⟨?_, fun now now_reset h => fps_update_of_rollover m now now_reset h, ?_⟩
  · intro ticks now now_reset h0 hlen hquiet hroll
    rw [fps_run_append, fps_run_quiet ticks m hquiet, h0, hlen]
    have hstep : ∀ s : FpsMeter, fps_run s [(now, now_reset)] = fps_update s now now_reset :=
      fun _ => rfl
    have hroll2 : fps_rollover ⟨0 + ((59 : Nat) : Int), m.fps, m.fps_timer⟩ now := hroll
    rw [hstep, fps_update_of_rollover _ now now_reset hroll2]
    norm_num
  · intro now now_reset h
    rw [fps_update_of_not_rollover m now now_reset h]
    exact ⟨rfl, rfl, rfl⟩

theorem rate_meter_witness :
    fps_run ⟨0, 17, 5000⟩ (List.replicate 59 (5500, 5500) ++ [(6001, 6002)])
      = ⟨0, 60, 6002⟩ ∧
    fps_update ⟨3, 17, 5000⟩ 5999 5999 = ⟨4, 17, 5000⟩ :=
  ⟨(rate_meter ⟨0, 17, 5000⟩).1 (List.replicate 59 (5500, 5500)) 6001 6002 rfl
      (by simp)
      (by intro p hp; rw [List.eq_of_mem_replicate hp]; decide)
      (by decide),
   by decide⟩

/-- C8. The loop sleeps `FRAME_DELAY - frame_time` when
`frame_time < FRAME_DELAY = 1000 / 60 = 16` and does not call the sleep at all
otherwise; the unsigned subtraction never wraps (its value is the true integer
difference), so the time slept is `max 0 (FRAME_DELAY - frame_time)` over the
integers: never negative and never more than `FRAME_DELAY`. -/
theorem pacer_sleep (frame_time : Nat) :
    FRAME_DELAY = 16 ∧
    (frame_time < FRAME_DELAY →
      frame_sleep frame_time = some (FRAME_DELAY - frame_time) ∧
      (u32_sub FRAME_DELAY frame_time : Int) = (FRAME_DELAY : Int) - (frame_time : Int)) ∧
    (¬ frame_time < FRAME_DELAY →
      frame_sleep frame_time = none ∧ sleep_duration frame_time = 0) ∧
    (sleep_duration frame_time : Int) = max 0 ((FRAME_DELAY : Int) - (frame_time : Int)) ∧
    sleep_duration frame_time ≤ FRAME_DELAY := by
  have hfd : FRAME_DELAY = 16 := by decide
  have hsub : frame_time < 16 → u32_sub 16 frame_time = 16 - frame_time := by
    intro h
    unfold u32_sub UINT32_MOD
    omega
  rw [hfd]
  refine ⟨rfl, ?_, ?_, ?_, ?_⟩
  · intro h
    refine ⟨?_, ?_⟩
    · unfold frame_sleep
      rw [hfd, if_pos h, hsub h]
    · rw [hsub h]; omega
  · intro h
    have hn : frame_sleep frame_time = none := by
      unfold frame_sleep
      rw [hfd, if_neg h]
    exact ⟨hn, by unfold sleep_duration; rw [hn]; rfl⟩
  · unfold sleep_duration frame_sleep
    rw [hfd]
    split_ifs with h
    · simp only [Option.getD_some]; rw [hsub h]; omega
    · simp only [Option.getD_none]; omega
  · unfold sleep_duration frame_sleep
    rw [hfd]
    split_ifs with h
    · simp only [Option.getD_some]; rw [hsub h]; omega
    · simp only [Option.getD_none]; omega

theorem pacer_sleep_witness :
    (3 : Nat) < FRAME_DELAY ∧ frame_sleep 3 = some 13 ∧
    ¬ (40 : Nat) < FRAME_DELAY ∧ frame_sleep 40 = none :=
  ⟨by decide, ((pacer_sleep 3).2.1 (by decide)).1,
   by decide, ((pacer_sleep 40).2.2.1 (by decide)).1⟩

end CPong
